import Mathlib

/-!
Shallow embedding of the messaging-compliance and webhook-routing core of
the `frappe_whatsapp` application (files `utils/consent.py`,
`utils/webhook.py`, `utils/routing.py` and the `WhatsApp Message` doctype
controller), together with theorems checking the natural-language
specification against it.

Conventions of the embedding:
* Frappe document stores are embedded as Lean lists of records; a
  `get_all(filters, limit=1)` followed by `get_doc(name)` on the result is
  embedded as a single `List.find?` on the store, and `doc.save()` as an
  in-place update of the first record with the saved document's name.
* Python truthiness on strings/optional strings is made explicit
  (`""` and `none` are falsy).
* Timestamps are rationals measured in hours (the source compares
  `time_diff_in_hours`, a float of hours, against an integer number of
  hours; exact rational arithmetic stands in for float arithmetic).
* Check (0/1) fields are embedded as `Bool`.
-/

namespace FrappeWhatsapp

/-- Python truthiness for an optional string: `None` and `""` are falsy. -/
def optTruthy : Option String → Bool
  | none => false
  | some s => s ≠ ""

/-- Modelled from the spec: phone-number normalization (`format_number` in
`frappe_whatsapp/utils/__init__.py`, which is not part of the sources at
hand).  The spec only says numbers are normalized to a canonical key; the
in-repo method `WhatsAppMessage.format_number`
(whatsapp_message.py:588-593) normalizes by stripping a leading `+`, and
this model follows it.  An empty result denotes an un-normalizable
number (Python-falsy). -/
def format_number (number : String) : String :=
  match number.data with
  | '+' :: rest => String.mk rest
  | _ => number

/-- `WhatsApp Compliance Settings` singleton (whatsapp_compliance_settings.py).
Only the fields read by the embedded code are kept.  `window_hours = 0`
stands for an unset Int field (Python-falsy, so the default 24 applies). -/
structure ComplianceSettings where
  consent_check_mode : String
  enforce_consent_check : Bool
  allow_transactional_without_consent : Bool
  enable_opt_out_detection : Bool
  enforce_24_hour_window : Bool
  window_hours : Nat
  allow_reply_outside_window : Bool
  include_unsubscribe_in_marketing : Bool
  default_unsubscribe_text : String
  deriving DecidableEq, Repr

/-- One `WhatsApp Profile Consent` child row of a profile
(whatsapp_profile_consent.py). -/
structure CategoryConsent where
  consent_category : String
  consented : Bool
  consented_at : Option ℚ
  deriving DecidableEq, Repr

/-- A `WhatsApp Profiles` record (whatsapp_profiles.py).  `name` is the
document name; child table rows are embedded inline. -/
structure Profile where
  name : String
  number : String
  profile_name : Option String
  whatsapp_account : String
  do_not_contact : Bool
  is_opted_out : Bool
  is_opted_in : Bool
  consent_status : String
  opted_out_at : Option ℚ
  opted_out_source : String
  opted_out_reason : Option String
  opted_in_at : Option ℚ
  opted_in_method : String
  category_consents : List CategoryConsent
  deriving DecidableEq, Repr

/-- Result of `verify_consent_for_send` (class `ConsentResult`,
consent.py:96-105). -/
structure ConsentResult where
  allowed : Bool
  status : String
  reason : String
  deriving DecidableEq, Repr

/-- `verify_consent_for_send` (consent.py:108-197).  The profile store is
passed explicitly; `get_all(filters={number}, limit=1)` + `get_doc` is one
`find?` by number. -/
def verify_consent_for_send (settings : ComplianceSettings)
    (profiles : List Profile) (phone_number : String)
    (consent_category : Option String) (is_transactional : Bool) :
    ConsentResult :=
  if settings.consent_check_mode = "Disabled" then
    ⟨true, "Bypassed", "Consent check disabled"⟩
  else if !settings.enforce_consent_check then
    ⟨true, "Bypassed", "Consent enforcement off"⟩
  else
    let number := format_number phone_number
    if number = "" then ⟨true, "Unknown", "No phone number"⟩
    else
      match profiles.find? (fun p => p.number == number) with
      | none =>
        if is_transactional && settings.allow_transactional_without_consent
        then ⟨true, "Bypassed", "Transactional bypass"⟩
        else if settings.consent_check_mode = "Warning Only" then
          ⟨true, "Unknown", "No profile found"⟩
        else
          ⟨false, "Unknown", "No consent profile found for this number"⟩
      | some profile =>
        if profile.do_not_contact then
          ⟨false, "Opted Out", "Contact is marked Do Not Contact"⟩
        else if profile.is_opted_out then
          ⟨false, "Opted Out", "Contact has opted out"⟩
        else
          let cat_block : Bool :=
            match consent_category with
            | none => false
            | some cat =>
              if cat = "" then false
              else if profile.name = "" then false
              else
                match profile.category_consents.find?
                    (fun r => r.consent_category == cat) with
                | none => false
                | some row => !row.consented
          if cat_block then
            ⟨false, "Opted Out",
              "Contact opted out of category: "
                ++ (consent_category.getD "")⟩
          else if profile.is_opted_in then ⟨true, "Opted In", ""⟩
          else if is_transactional
              && settings.allow_transactional_without_consent then
            ⟨true, "Bypassed", "Transactional bypass"⟩
          else if settings.consent_check_mode = "Warning Only" then
            ⟨true, "Unknown", "Consent not confirmed"⟩
          else ⟨false, "Unknown", "Contact has not opted in"⟩

/-- A `WhatsApp Message` record (whatsapp_message.py).  Optional Data
fields are `Option String`; Check fields are `Bool`; `creation` is the
record timestamp in hours.  The parsed `flow_response` JSON object is
embedded as a key-value list. -/
structure Message where
  name : String
  type : String
  «from» : Option String
  «to» : Option String
  message : Option String
  message_id : Option String
  reply_to_message_id : Option String
  is_reply : Bool
  content_type : String
  message_type : String
  template : Option String
  profile_name : Option String
  whatsapp_account : String
  routed_app : Option String
  source_app : Option String
  status : Option String
  conversation_id : Option String
  is_opt_out_request : Bool
  is_opt_in_request : Bool
  consent_checked : Bool
  consent_status_at_send : String
  consent_bypass_reason : Option String
  within_conversation_window : Bool
  flow_response : Option (List (String × String))
  creation : ℚ
  deriving DecidableEq, Repr

/-- ASCII lower-casing of one character (stands in for Python
`str.lower()`; keyword data in this app is ASCII). -/
def asciiLower (c : Char) : Char :=
  if 'A' ≤ c ∧ c ≤ 'Z' then Char.ofNat (c.toNat + 32) else c

/-- Whitespace recognized by the embedded `str.strip()`. -/
def isPySpace (c : Char) : Bool :=
  c == ' ' || c == '\t' || c == '\n' || c == '\r'

/-- Python `str.lower()` on the embedded strings. -/
def lowerStr (s : String) : String :=
  String.mk (s.data.map asciiLower)

/-- Python `str.strip()`: drop leading and trailing whitespace. -/
def trimStr (s : String) : String :=
  String.mk (((s.data.dropWhile isPySpace).reverse.dropWhile
    isPySpace).reverse)

/-- Does the second list start with the first? -/
def seqStarts [BEq α] : List α → List α → Bool
  | [], _ => true
  | _ :: _, [] => false
  | a :: as, b :: bs => a == b && seqStarts as bs

/-- Does the second list contain the first as a contiguous run? -/
def seqContains [BEq α] (needle : List α) : List α → Bool
  | [] => seqStarts needle []
  | b :: bs => seqStarts needle (b :: bs) || seqContains needle bs

/-- Python `needle in haystack` substring test. -/
def strContains (haystack needle : String) : Bool :=
  seqContains needle.data haystack.data

/-- The creation timestamp of the most recent stored Incoming message from
`number` (optionally restricted to one account): the `get_all` query of
consent.py:232-238, `order_by creation desc, limit 1` embedded as the
maximum creation among the matching records. -/
def last_incoming_creation (messages : List Message) (number : String)
    (whatsapp_account : Option String) : Option ℚ :=
  ((messages.filter (fun m =>
      m.type == "Incoming" && m.«from» == some number &&
        (if optTruthy whatsapp_account
         then m.whatsapp_account == whatsapp_account.getD ""
         else true))).map (fun m => m.creation)).max?

/-- The configured window, defaulting to 24 when the Int field is unset
(`int(settings.window_hours or 24)`, consent.py:222). -/
def effective_window_hours (settings : ComplianceSettings) : ℚ :=
  if settings.window_hours = 0 then 24 else (settings.window_hours : ℚ)

/-- `is_within_conversation_window` (consent.py:202-253). -/
def is_within_conversation_window (settings : ComplianceSettings)
    (messages : List Message) (now : ℚ) (phone_number : String)
    (whatsapp_account : Option String) : Bool × String :=
  if !settings.enforce_24_hour_window then
    (true, "24-hour window enforcement disabled")
  else
    let number := format_number phone_number
    if number = "" then (false, "No phone number")
    else
      match last_incoming_creation messages number whatsapp_account with
      | none => (false, "No incoming message found from this contact")
      | some last_msg_time =>
        let hours_since := now - last_msg_time
        if hours_since ≤ effective_window_hours settings then (true, "")
        else
          -- The source interpolates the elapsed hours and the window into
          -- this diagnostic text (float formatting, not modelled).
          (false, "Last incoming message is older than the window")

/-- A `WhatsApp Templates` record (whatsapp_templates.py); only the fields
the embedded compliance code reads.  Optional Data fields read through
`or ""` / `getattr(..., "")` are plain strings with `""` for unset. -/
structure Template where
  name : String
  category : String
  unsubscribe_text : String
  footer : String
  status : String
  is_transactional : Bool
  required_consent_category : Option String
  deriving DecidableEq, Repr

/-- Outcome of a compliance check: `violation msg` embeds
`frappe.throw(msg)`. -/
inductive ComplianceCheck where
  | ok : ComplianceCheck
  | violation : String → ComplianceCheck
  deriving DecidableEq, Repr

/-- The unsubscribe text that applies to a template: its own, or the
configured default (consent.py:592-595). -/
def effective_unsubscribe_text (settings : ComplianceSettings)
    (template : Template) : String :=
  if trimStr template.unsubscribe_text ≠ ""
  then trimStr template.unsubscribe_text
  else trimStr settings.default_unsubscribe_text

/-- `enforce_marketing_template_compliance` (consent.py:583-607). -/
def enforce_marketing_template_compliance (settings : ComplianceSettings)
    (template : Option Template) : ComplianceCheck :=
  match template with
  | none => .ok
  | some t =>
    if t.category ≠ "MARKETING" then .ok
    else if !settings.include_unsubscribe_in_marketing then .ok
    else
      let unsubscribe_text := effective_unsubscribe_text settings t
      if unsubscribe_text = "" then
        .violation ("Unsubscribe text is required for marketing templates."
          ++ " Set it on the template or in Compliance Settings.")
      else
        let footer := trimStr t.footer
        if !strContains footer unsubscribe_text then
          .violation ("Marketing templates must include unsubscribe text"
            ++ " in the footer. Please update the template.")
        else .ok

/-- A `WhatsApp Opt Out Keyword` record (whatsapp_opt_out_keyword.py).
`whatsapp_account = ""` scopes the keyword to all accounts. -/
structure OptOutKeyword where
  keyword : String
  case_sensitive : Bool
  match_type : String
  action : String
  target_category : Option String
  is_enabled : Bool
  whatsapp_account : String
  deriving DecidableEq, Repr

/-- `get_opt_out_keywords` (consent.py:19-36): enabled keywords, filtered
to the global scope or the given account when one is supplied. -/
def get_opt_out_keywords (keywords : List OptOutKeyword)
    (whatsapp_account : Option String) : List OptOutKeyword :=
  keywords.filter (fun k =>
    k.is_enabled &&
      (if optTruthy whatsapp_account
       then k.whatsapp_account == "" ||
         k.whatsapp_account == whatsapp_account.getD ""
       else true))

/-- The per-keyword match test of `check_opt_out_keyword`
(consent.py:56-75): optional lower-casing, strip, then
Exact / Contains / Starts With comparison. -/
def keyword_matches (kw : OptOutKeyword) (message_text : String) : Bool :=
  let keyword := if kw.case_sensitive then kw.keyword
    else lowerStr kw.keyword
  let text0 := if kw.case_sensitive then message_text
    else lowerStr message_text
  let text := trimStr text0
  if kw.match_type == "Exact" then text == keyword
  else if kw.match_type == "Contains" then strContains text keyword
  else if kw.match_type == "Starts With" then
    seqStarts keyword.data text.data
  else false

/-- `check_opt_out_keyword` (consent.py:39-77): the first enabled keyword
in list order that matches the text, or none. -/
def check_opt_out_keyword (settings : ComplianceSettings)
    (keywords : List OptOutKeyword) (message_text : String)
    (whatsapp_account : Option String) : Option OptOutKeyword :=
  if message_text = "" then none
  else if !settings.enable_opt_out_detection then none
  else (get_opt_out_keywords keywords whatsapp_account).find?
    (fun kw => keyword_matches kw message_text)

/-- A `WhatsApp Consent Log` record (whatsapp_consent_log.py). -/
structure ConsentLog where
  profile : String
  phone_number : String
  action : String
  consent_category : Option String
  previous_status : Bool
  new_status : Bool
  source : String
  source_message : Option String
  user : String
  timestamp : ℚ
  deriving DecidableEq, Repr

/-- A `WhatsApp Conversation Route` record (whatsapp_conversation_route.py).
Modelled from the spec: the doctype's naming rule is not among the sources
at hand; the spec keys routes by (normalized number, account), and
routing.py computes exactly the key `contact ++ "-" ++ account` for both
the existence check and the lookup, so `name` holds that key. -/
structure Route where
  name : String
  whatsapp_account : String
  contact_number : String
  last_source_app : String
  last_outgoing_message : Option String
  last_outgoing_at : ℚ
  deriving DecidableEq, Repr

/-- The whole document store the embedded code touches. -/
structure DB where
  profiles : List Profile
  consent_logs : List ConsentLog
  messages : List Message
  routes : List Route
  deriving DecidableEq, Repr

/-- Ambient request state: `now_datetime()` (hours) and
`frappe.session.user`. -/
structure Env where
  now : ℚ
  user : String
  deriving DecidableEq, Repr

/-- Replace the first list entry satisfying `p` (embeds a frappe
`set_value`/`save` keyed on a document name). -/
def updateFirst (p : α → Bool) (f : α → α) : List α → List α
  | [] => []
  | x :: xs => if p x then f x :: xs else x :: updateFirst p f xs

/-- Python `str(x)` on an optional string (`str(None) = "None"`). -/
def pyStr : Option String → String
  | none => "None"
  | some s => s

/-- Python `x or y` on optional strings. -/
def pyOrOpt (a b : Option String) : Option String :=
  if optTruthy a then a else b

/-- Python `str(x or "")` on an optional string. -/
def optStr : Option String → String
  | none => ""
  | some s => s

-- ── Conversation routing (routing.py) ─────────────────────────────────

/-- `set_last_sender_app` (routing.py:11-43): upsert of the ConversationRoute
keyed by `contact-account`; a no-op when account, normalized number or
source app is falsy. -/
def set_last_sender_app (now : ℚ) (routes : List Route)
    (whatsapp_account to_number source_app : String)
    (message_name : Option String) : List Route :=
  let contact := format_number to_number
  if !(whatsapp_account ≠ "" && contact ≠ "" && source_app ≠ "") then routes
  else
    let doc_name := contact ++ "-" ++ whatsapp_account
    match routes.find? (fun r => r.name == doc_name) with
    | some _ =>
      updateFirst (fun r => r.name == doc_name)
        (fun r => { r with
          last_source_app := source_app,
          last_outgoing_message := message_name,
          last_outgoing_at := now }) routes
    | none =>
      routes ++ [⟨doc_name, whatsapp_account, contact, source_app,
        message_name, now⟩]

/-- `get_last_sender_app` (routing.py:46-62): pure lookup by the
`contact-account` key; falsy stored values come back as `none`. -/
def get_last_sender_app (routes : List Route)
    (whatsapp_account contact_number : String) : Option String :=
  let contact := format_number contact_number
  if !(whatsapp_account ≠ "" && contact ≠ "") then none
  else
    let doc_name := contact ++ "-" ++ whatsapp_account
    match routes.find? (fun r => r.name == doc_name) with
    | none => none
    | some r =>
      if r.last_source_app = "" then none else some r.last_source_app

-- ── Consent mutation service (consent.py) ─────────────────────────────

/-- `_get_or_create_profile` (consent.py:258-278).  Created document names
are abstracted as a counter-derived string. -/
def get_or_create_profile (db : DB) (contact_number whatsapp_account : String)
    (profile_name : Option String) : String × DB :=
  let number := format_number contact_number
  match db.profiles.find? (fun q => q.number == number) with
  | some q => (q.name, db)
  | none =>
    let doc : Profile :=
      { name := "WPROF-" ++ toString db.profiles.length
        number := number
        profile_name := profile_name
        whatsapp_account := whatsapp_account
        do_not_contact := false
        is_opted_out := false
        is_opted_in := false
        consent_status := "Unknown"
        opted_out_at := none
        opted_out_source := ""
        opted_out_reason := none
        opted_in_at := none
        opted_in_method := ""
        category_consents := [] }
    (doc.name, { db with profiles := db.profiles ++ [doc] })

/-- `_log_consent` (consent.py:556-580): append one audit row. -/
def log_consent (env : Env) (db : DB) (profile phone_number action_type :
    String) (consent_category : Option String)
    (previous_status new_status : Bool) (source : String)
    (source_message : Option String) : DB :=
  let entry : ConsentLog := ⟨profile, phone_number, action_type,
    consent_category, previous_status, new_status, source, source_message,
    env.user, env.now⟩
  { db with consent_logs := db.consent_logs ++ [entry] }

/-- `_category_opt_out` (consent.py:331-364): clear the first matching
category row, escalate to a full opt-out when every row is now
non-consented, and log a Category Opt-Out entry. -/
def category_opt_out (env : Env) (db : DB) (profile : Profile)
    (target_category : String) (message_doc_name : Option String) : DB :=
  let rows := updateFirst (fun r => r.consent_category == target_category)
    (fun r => { r with consented := false, consented_at := some env.now })
    profile.category_consents
  let all_out := rows.all (fun r => !r.consented)
  let updated :=
    if all_out then
      { profile with
        category_consents := rows
        consent_status := "Opted Out"
        is_opted_out := true
        is_opted_in := false }
    else
      { profile with
        category_consents := rows
        consent_status := "Partial" }
  let newProfiles := updateFirst (fun q => q.name == profile.name)
    (fun _ => updated) db.profiles
  let db1 := { db with profiles := newProfiles }
  log_consent env db1 profile.name profile.number "Category Opt-Out"
    (some target_category) true false "Webhook" message_doc_name

/-- `(keyword_match or {}).get("action", "Full Opt-Out")`
(consent.py:299). -/
def opt_out_action (keyword_match : Option OptOutKeyword) : String :=
  match keyword_match with
  | none => "Full Opt-Out"
  | some k => k.action

/-- `(keyword_match or {}).get("target_category")` (consent.py:300). -/
def opt_out_target (keyword_match : Option OptOutKeyword) :
    Option String :=
  match keyword_match with
  | none => none
  | some k => k.target_category

/-- `(keyword_match or {}).get("keyword", "unknown")` (consent.py:310). -/
def opt_out_keyword_name (keyword_match : Option OptOutKeyword) : String :=
  match keyword_match with
  | none => "unknown"
  | some k => k.keyword

/-- The full-opt-out profile update of consent.py:305-312. -/
def full_opt_out_update (env : Env)
    (keyword_match : Option OptOutKeyword) (profile : Profile) : Profile :=
  { profile with
    is_opted_out := true
    is_opted_in := false
    opted_out_at := some env.now
    opted_out_source := "Keyword"
    opted_out_reason := some ("Keyword: " ++
      opt_out_keyword_name keyword_match)
    consent_status := "Opted Out" }

/-- `process_opt_out` (consent.py:281-328): resolve or create the profile,
apply a category or full opt-out, log it, and tag the triggering
message. -/
def process_opt_out (env : Env) (db : DB)
    (contact_number whatsapp_account : String)
    (message_doc_name : Option String)
    (keyword_match : Option OptOutKeyword)
    (profile_name : Option String) : DB :=
  let res := get_or_create_profile db contact_number whatsapp_account
    profile_name
  let profile_id := res.1
  let db1 := res.2
  match db1.profiles.find? (fun q => q.name == profile_id) with
  | none => db1
  | some profile =>
    let previous_opted_out := profile.is_opted_out
    let db2 :=
      if opt_out_action keyword_match = "Category Opt-Out" &&
          optTruthy (opt_out_target keyword_match) then
        category_opt_out env db1 profile
          ((opt_out_target keyword_match).getD "") message_doc_name
      else
        let newProfiles := updateFirst (fun q => q.name == profile_id)
          (fun _ => full_opt_out_update env keyword_match profile)
          db1.profiles
        let db1b := { db1 with profiles := newProfiles }
        log_consent env db1b profile_id (format_number contact_number)
          "Opt-Out" none previous_opted_out true "Webhook" message_doc_name
    if optTruthy message_doc_name then
      let newMessages := updateFirst
        (fun m => m.name == message_doc_name.getD "")
        (fun m => { m with is_opt_out_request := true }) db2.messages
      { db2 with messages := newMessages }
    else db2

-- ── Webhook ingestion pipeline (webhook.py) ───────────────────────────

/-- The `context` object of an inbound provider message: `id` key (when
present) and whether a `forwarded` key is present. -/
structure Ctx where
  id : Option String
  forwarded : Bool
  deriving DecidableEq, Repr

/-- The payload under a media content-type key. -/
structure MediaData where
  id : Option String
  caption : String
  deriving DecidableEq, Repr

/-- The `interactive` object: its `type`, the selected option id of a
button/list reply, and the parsed `response_json` of a flow reply (an
empty list when parsing fails). -/
structure InteractiveData where
  type : Option String
  reply_id : Option String
  nfm_response : List (String × String)
  deriving DecidableEq, Repr

/-- One inbound provider message, decoded from the duck-typed payload
dict. -/
structure InboundMessage where
  «from» : Option String
  id : Option String
  type : Option String
  text_body : Option String
  context : Option Ctx
  interactive : Option InteractiveData
  media : Option MediaData
  raw : Option String
  deriving DecidableEq, Repr

/-- `WhatsAppMessage.create_whatsapp_profile` (whatsapp_message.py:109-117),
run by `before_insert` for every inserted message: create a Profile for
the sender (or recipient) number when none exists. -/
def create_whatsapp_profile_hook (db : DB) (doc : Message) : DB :=
  let number := format_number (pyStr (pyOrOpt doc.«from» doc.«to»))
  if db.profiles.any (fun q => q.number == number) then db
  else
    let newProfile : Profile :=
      { name := "WPROF-" ++ toString db.profiles.length
        number := number
        profile_name := doc.profile_name
        whatsapp_account := doc.whatsapp_account
        do_not_contact := false
        is_opted_out := false
        is_opted_in := false
        consent_status := "Unknown"
        opted_out_at := none
        opted_out_source := ""
        opted_out_reason := none
        opted_in_at := none
        opted_in_method := ""
        category_consents := [] }
    { db with profiles := db.profiles ++ [newProfile] }

/-- `WhatsAppMessage.update_profile_name` (whatsapp_message.py:91-107), run
by `on_update`: push a (changed, truthy) profile name onto the existing
Profile of the sender number.  On a fresh insert every field counts as
changed. -/
def update_profile_name_hook (db : DB) (doc : Message) : DB :=
  match doc.«from» with
  | none => db
  | some number =>
    if number = "" then db
    else
      let from_number := format_number number
      if optTruthy doc.profile_name && from_number ≠ "" &&
          db.profiles.any (fun q => q.number == from_number) then
        let newProfiles := updateFirst (fun q => q.number == from_number)
          (fun q => { q with profile_name := doc.profile_name })
          db.profiles
        { db with profiles := newProfiles }
      else db

/-- Insert one Incoming `WhatsApp Message` document, running the
controller hooks an insert triggers: `before_insert` (whose consent/window
checks are Outgoing-only, leaving `create_whatsapp_profile`) and
`on_update` (`update_profile_name`). -/
def insert_incoming_message (db : DB) (doc : Message) : DB :=
  let db1 := create_whatsapp_profile_hook db doc
  let db2 := { db1 with messages := db1.messages ++ [doc] }
  update_profile_name_hook db2 doc

/-- The `interactive.get("type")` of an inbound message
(webhook.py:255-256). -/
def interactive_type_of (message : InboundMessage) : Option String :=
  match message.interactive with
  | none => none
  | some i => i.type

/-- The selected option id of a button/list reply (webhook.py:260). -/
def interactive_reply_id_of (message : InboundMessage) : Option String :=
  match message.interactive with
  | none => none
  | some i => i.reply_id

/-- The parsed `response_json` of a flow reply (webhook.py:278-284); an
empty list embeds a parse failure. -/
def nfm_response_of (message : InboundMessage) : List (String × String) :=
  match message.interactive with
  | none => []
  | some i => i.nfm_response

/-- The human-readable flow summary of webhook.py:286-288. -/
def flow_summary (flow_response : List (String × String)) : String :=
  let summary_parts := (flow_response.filter (fun kv => kv.2 ≠ "")).map
    (fun kv => kv.1 ++ ": " ++ kv.2)
  if summary_parts.isEmpty then "Flow completed"
  else String.intercalate ", " summary_parts

/-- The media caption of webhook.py:213 (`.get("caption", "")`). -/
def media_caption_of (message : InboundMessage) : String :=
  match message.media with
  | none => ""
  | some md => md.caption

/-- The shared fields of every Incoming document the dispatch creates.
Document names are abstracted as a counter-derived string; fields the
source does not set keep their doctype defaults. -/
def incoming_doc_base (env : Env) (db : DB) (message : InboundMessage)
    (whatsapp_account : String) (sender_profile_name : Option String)
    (last_app : Option String) (reply_to_message_id : Option String)
    (is_reply : Bool) : Message :=
  { name := "WAM-" ++ toString db.messages.length
    type := "Incoming"
    «from» := message.«from»
    «to» := none
    message := none
    message_id := message.id
    reply_to_message_id := reply_to_message_id
    is_reply := is_reply
    content_type := ""
    message_type := ""
    template := none
    profile_name := sender_profile_name
    whatsapp_account := whatsapp_account
    routed_app := last_app
    source_app := none
    status := none
    conversation_id := none
    is_opt_out_request := false
    is_opt_in_request := false
    consent_checked := false
    consent_status_at_send := ""
    consent_bypass_reason := none
    within_conversation_window := false
    flow_response := none
    creation := env.now }

/-- The Incoming document a webhook message produces, per the content-type
dispatch of `_process_incoming_message` / `_handle_interactive`
(webhook.py:176-316): `some doc` when the branch inserts a document,
`none` for an interactive type that matches neither branch. -/
def incoming_doc_for (env : Env) (db : DB) (message : InboundMessage)
    (whatsapp_account : String) (sender_profile_name : Option String)
    (last_app : Option String) (reply_to_message_id : Option String)
    (is_reply : Bool) : Option Message :=
  if message.type == some "text" then
    some { incoming_doc_base env db message whatsapp_account
        sender_profile_name last_app reply_to_message_id is_reply with
      message := message.text_body
      content_type := "text" }
  else if message.type == some "interactive" then
    if interactive_type_of message == some "button_reply" ||
        interactive_type_of message == some "list_reply" then
      some { incoming_doc_base env db message whatsapp_account
          sender_profile_name last_app reply_to_message_id is_reply with
        message := interactive_reply_id_of message
        content_type := "button" }
    else if interactive_type_of message == some "nfm_reply" then
      some { incoming_doc_base env db message whatsapp_account
          sender_profile_name last_app reply_to_message_id is_reply with
        message := some (flow_summary (nfm_response_of message))
        content_type := "flow"
        flow_response := some (nfm_response_of message) }
    else none
  else if message.type == some "image" || message.type == some "audio" ||
      message.type == some "video" || message.type == some "document" then
    some { incoming_doc_base env db message whatsapp_account
        sender_profile_name last_app reply_to_message_id is_reply with
      message := some (media_caption_of message)
      content_type := message.type.getD "" }
  else
    some { incoming_doc_base env db message whatsapp_account
        sender_profile_name last_app reply_to_message_id is_reply with
      message := message.raw
      content_type := if optTruthy message.type then message.type.getD ""
        else "unknown" }

/-- `context.get("id")` of an inbound message (webhook.py:157-158). -/
def context_id_of (message : InboundMessage) : Option String :=
  match message.context with
  | none => none
  | some c => c.id

/-- The reply test of webhook.py:160-167: a context object with an `id`
key, no `forwarded` key, and a truthy id. -/
def is_reply_of (message : InboundMessage) : Bool :=
  (match message.context with
   | none => false
   | some c => c.id.isSome && !c.forwarded) &&
    optTruthy (context_id_of message)

/-- `reply_to_message_id` (webhook.py:169). -/
def reply_to_of (message : InboundMessage) : Option String :=
  if is_reply_of message then some ((context_id_of message).getD "")
  else none

/-- `_process_incoming_message` (webhook.py:145-249): drop events without a
sender, look up the last routed app, derive reply threading, apply the
idempotency guard on the provider message id, then insert the document the
content-type dispatch produces (forwarding and media download are
fire-and-forget side effects outside the store). -/
def process_incoming_message (env : Env) (db : DB)
    (message : InboundMessage) (whatsapp_account : String)
    (sender_profile_name : Option String) : DB :=
  match message.«from» with
  | none => db
  | some contact_number =>
    if contact_number = "" then db
    else
      let last_app := get_last_sender_app db.routes whatsapp_account
        contact_number
      let msg_id := message.id
      if optTruthy msg_id &&
          db.messages.any (fun m => m.message_id == msg_id) then db
      else
        match incoming_doc_for env db message whatsapp_account
          sender_profile_name last_app (reply_to_of message)
          (is_reply_of message) with
        | none => db
        | some doc => insert_incoming_message db doc

-- ── Delivery-status updates (webhook.py) ──────────────────────────────

/-- One entry of a status webhook's `statuses` array. -/
structure StatusEntry where
  id : String
  status : String
  conversation : Option String
  deriving DecidableEq, Repr

/-- The `value` object of a delivery-status webhook. -/
structure StatusValue where
  statuses : List StatusEntry
  deriving DecidableEq, Repr

/-- `update_message_status` (webhook.py:338-352): read `statuses[0]`
(`none` embeds the KeyError a payload without statuses raises), look up
the Message by provider id, and update its status and (when truthy)
conversation id; an unknown id returns without effect. -/
def update_message_status (data : StatusValue)
    (messages : List Message) : Option (List Message) :=
  match data.statuses with
  | [] => none
  | e :: _ =>
    match messages.find? (fun m => m.message_id == some e.id) with
    | none => some messages
    | some _ =>
      some (updateFirst (fun m => m.message_id == some e.id)
        (fun m =>
          let conv := if optTruthy e.conversation then e.conversation
            else m.conversation_id
          { m with status := some e.status, conversation_id := conv })
        messages)

-- ── Outgoing-message insert checks (whatsapp_message.py) ──────────────

/-- Outcome of the pre-insert phase of `WhatsAppMessage.before_insert`:
either the (possibly updated) document, or `blocked msg` for a
`frappe.throw` that aborts the insert. -/
inductive InsertResult where
  | ok : Message → InsertResult
  | blocked : String → InsertResult
  deriving DecidableEq, Repr

/-- `WhatsAppMessage._check_consent` (whatsapp_message.py:133-161). -/
def check_consent (settings : ComplianceSettings) (profiles : List Profile)
    (templates : List Template) (doc : Message) : InsertResult :=
  let tdata : Option Template := match doc.template with
    | none => none
    | some tname =>
      if tname = "" then none
      else templates.find? (fun t => t.name == tname)
  let is_transactional := match tdata with
    | none => false
    | some t => t.is_transactional
  let consent_category := match tdata with
    | none => none
    | some t => t.required_consent_category
  let result := verify_consent_for_send settings profiles
    (optStr doc.«to») consent_category is_transactional
  if !result.allowed then
    .blocked ("Cannot send message: " ++ result.reason)
  else
    .ok { doc with
      consent_checked := true
      consent_status_at_send := result.status }

/-- `WhatsAppMessage._check_conversation_window`
(whatsapp_message.py:163-184). -/
def check_conversation_window (settings : ComplianceSettings)
    (messages : List Message) (now : ℚ) (doc : Message) : InsertResult :=
  let wr := is_within_conversation_window settings messages now
    (optStr doc.«to») (some doc.whatsapp_account)
  let doc1 := { doc with within_conversation_window := wr.fst }
  if !wr.fst && !settings.allow_reply_outside_window then
    .blocked ("Cannot send free-form message outside the conversation"
      ++ " window. Use an approved template instead. " ++ wr.snd)
  else .ok doc1

/-- The guard phase of `WhatsAppMessage.before_insert`
(whatsapp_message.py:198-210): resolve the account, then run the consent
check and — for non-template messages — the window check, but only for
Outgoing documents with a recipient and no `message_id` yet.  The default
account produced by `get_whatsapp_account` (a utils helper outside the
sources at hand) is modelled from the spec as the parameter
`default_account`.  Payload construction and transmission
(whatsapp_message.py:212-378) happen after this phase and are outside
the embedding. -/
def before_insert_checks (settings : ComplianceSettings)
    (profiles : List Profile) (templates : List Template)
    (messages : List Message) (now : ℚ) (default_account : Option String)
    (doc : Message) : InsertResult :=
  let step0 : InsertResult :=
    if doc.whatsapp_account ≠ "" then .ok doc
    else match default_account with
      | none => .blocked ("Please set a default outgoing WhatsApp Account"
          ++ " or Select available WhatsApp Account")
      | some a => .ok { doc with whatsapp_account := a }
  match step0 with
  | .blocked m => .blocked m
  | .ok doc1 =>
    if doc1.type == "Outgoing" && optTruthy doc1.«to» &&
        !optTruthy doc1.message_id then
      match check_consent settings profiles templates doc1 with
      | .blocked m => .blocked m
      | .ok doc2 =>
        if doc2.message_type != "Template" then
          check_conversation_window settings messages now doc2
        else .ok doc2
    else .ok doc1

-- ── Concrete fixtures for evaluating the pipeline on an opt-out text ──

/-- Compliance settings with opt-out keyword detection enabled. -/
def stop_settings : ComplianceSettings :=
  ⟨"Strict", true, false, true, true, 24, false, false, ""⟩

/-- The enabled, global, case-insensitive Exact keyword rule "STOP". -/
def stop_keyword : OptOutKeyword :=
  ⟨"STOP", false, "Exact", "Full Opt-Out", none, true, ""⟩

/-- A profile for the sender that has not opted out. -/
def stop_profile : Profile :=
  ⟨"WP-1", "15551230000", none, "acct", false, false, false, "Unknown",
    none, "", none, none, "", []⟩

/-- An inbound text message whose body is exactly "STOP". -/
def stop_inbound : InboundMessage :=
  ⟨some "15551230000", some "wamid-stop", some "text", some "STOP", none,
    none, none, none⟩

/-- The store before the webhook is processed. -/
def stop_db : DB := ⟨[stop_profile], [], [], []⟩

/-- The ambient request state for the fixture. -/
def stop_env : Env := ⟨10, "Administrator"⟩

/-- C4: with enforcement on and a normalizable number, the check succeeds
iff the hours elapsed since the most recent Incoming message are at most
the configured window, and fails when there is no Incoming message. -/
theorem within_window_iff_elapsed_le
    (settings : ComplianceSettings) (messages : List Message) (now : ℚ)
    (phone_number : String) (whatsapp_account : Option String)
    (henf : settings.enforce_24_hour_window = true)
    (hnum : format_number phone_number ≠ "") :
    (∀ t, last_incoming_creation messages (format_number phone_number)
        whatsapp_account = some t →
      ((is_within_conversation_window settings messages now phone_number
          whatsapp_account).fst = true ↔
        now - t ≤ effective_window_hours settings)) ∧
    (last_incoming_creation messages (format_number phone_number)
        whatsapp_account = none →
      (is_within_conversation_window settings messages now phone_number
          whatsapp_account).fst = false) := by
  constructor
  · intro t ht
    unfold is_within_conversation_window
    simp [henf, hnum, ht]
    split <;> simp_all
  · intro hnone
    unfold is_within_conversation_window
    simp [henf, hnum, hnone]

/-- C4 witness: one Incoming message 23 hours old is within a 24h window
and 25 hours old is outside it; with no Incoming message the check
fails. -/
theorem within_window_iff_elapsed_le_witness :
    (is_within_conversation_window
        ⟨"Strict", true, false, true, true, 24, false, false, ""⟩
        [⟨"M-1", "Incoming", some "15551230000", none, some "hi", some "w1",
          none, false, "text", "Manual", none, none, "acct", none, none,
          none, none, false, false, false, "", none, false, none, 0⟩]
        23 "+15551230000" (some "acct")).fst = true ∧
    (is_within_conversation_window
        ⟨"Strict", true, false, true, true, 24, false, false, ""⟩
        [⟨"M-1", "Incoming", some "15551230000", none, some "hi", some "w1",
          none, false, "text", "Manual", none, none, "acct", none, none,
          none, none, false, false, false, "", none, false, none, 0⟩]
        25 "+15551230000" (some "acct")).fst = false ∧
    (is_within_conversation_window
        ⟨"Strict", true, false, true, true, 24, false, false, ""⟩
        [] 23 "+15551230000" (some "acct")).fst = false := by
  refine ⟨?_, ?_, ?_⟩
  · exact ((within_window_iff_elapsed_le
      ⟨"Strict", true, false, true, true, 24, false, false, ""⟩
      [⟨"M-1", "Incoming", some "15551230000", none, some "hi", some "w1",
        none, false, "text", "Manual", none, none, "acct", none, none,
        none, none, false, false, false, "", none, false, none, 0⟩]
      23 "+15551230000" (some "acct") rfl (by decide)).1 0
      (by decide)).mpr (by norm_num [effective_window_hours])
  · have hiff := (within_window_iff_elapsed_le
      ⟨"Strict", true, false, true, true, 24, false, false, ""⟩
      [⟨"M-1", "Incoming", some "15551230000", none, some "hi", some "w1",
        none, false, "text", "Manual", none, none, "acct", none, none,
        none, none, false, false, false, "", none, false, none, 0⟩]
      25 "+15551230000" (some "acct") rfl (by decide)).1 0 (by decide)
    have hnot : ¬((25 : ℚ) - 0 ≤ effective_window_hours
        ⟨"Strict", true, false, true, true, 24, false, false, ""⟩) := by
      norm_num [effective_window_hours]
    cases hfst : (is_within_conversation_window
        ⟨"Strict", true, false, true, true, 24, false, false, ""⟩
        [⟨"M-1", "Incoming", some "15551230000", none, some "hi", some "w1",
          none, false, "text", "Manual", none, none, "acct", none, none,
          none, none, false, false, false, "", none, false, none, 0⟩]
        25 "+15551230000" (some "acct")).fst
    · rfl
    · exact absurd (hiff.mp hfst) hnot
  · exact (within_window_iff_elapsed_le
      ⟨"Strict", true, false, true, true, 24, false, false, ""⟩
      [] 23 "+15551230000" (some "acct") rfl (by decide)).2 (by decide)

/-- C2: with enforcement active, a profile marked `do_not_contact` is
always denied with status "Opted Out", for every `is_opted_in` value,
every consent category and every `is_transactional` flag. -/
theorem verify_consent_do_not_contact_denies
    (settings : ComplianceSettings) (profiles : List Profile)
    (phone_number : String) (consent_category : Option String)
    (is_transactional : Bool) (p : Profile)
    (hmode : settings.consent_check_mode ≠ "Disabled")
    (henf : settings.enforce_consent_check = true)
    (hnum : format_number phone_number ≠ "")
    (hfind : profiles.find? (fun q => q.number == format_number phone_number)
      = some p)
    (hdnc : p.do_not_contact = true) :
    (verify_consent_for_send settings profiles phone_number
        consent_category is_transactional).allowed = false ∧
    (verify_consent_for_send settings profiles phone_number
        consent_category is_transactional).status = "Opted Out" := by
  unfold verify_consent_for_send
  simp [hmode, henf, hnum, hfind, hdnc]

/-- C2 witness: a concrete do-not-contact profile is denied. -/
theorem verify_consent_do_not_contact_denies_witness :
    (verify_consent_for_send
        ⟨"Strict", true, true, true, true, 24, false, false, ""⟩
        [⟨"WP-1", "15551230000", none, "acct", true, false, true,
          "Opted In", none, "", none, none, "", []⟩]
        "+15551230000" (some "promos") true).allowed = false ∧
    (verify_consent_for_send
        ⟨"Strict", true, true, true, true, 24, false, false, ""⟩
        [⟨"WP-1", "15551230000", none, "acct", true, false, true,
          "Opted In", none, "", none, none, "", []⟩]
        "+15551230000" (some "promos") true).status = "Opted Out" :=
  verify_consent_do_not_contact_denies
    ⟨"Strict", true, true, true, true, 24, false, false, ""⟩
    [⟨"WP-1", "15551230000", none, "acct", true, false, true,
      "Opted In", none, "", none, none, "", []⟩]
    "+15551230000" (some "promos") true
    ⟨"WP-1", "15551230000", none, "acct", true, false, true,
      "Opted In", none, "", none, none, "", []⟩
    (by decide) (by decide) (by decide) (by decide) (by decide)

/-- C5: marketing-template compliance — with the feature enabled, a
MARKETING template with no unsubscribe text (own or default) is rejected;
a non-MARKETING template or a disabled feature is a no-op; a non-empty
applicable unsubscribe text absent from the trimmed footer is rejected. -/
theorem marketing_template_compliance_cases
    (settings : ComplianceSettings) (t : Template) :
    (t.category = "MARKETING" →
      settings.include_unsubscribe_in_marketing = true →
      trimStr t.unsubscribe_text = "" →
      trimStr settings.default_unsubscribe_text = "" →
      enforce_marketing_template_compliance settings (some t) =
        .violation ("Unsubscribe text is required for marketing templates."
          ++ " Set it on the template or in Compliance Settings.")) ∧
    (t.category ≠ "MARKETING" →
      enforce_marketing_template_compliance settings (some t) = .ok) ∧
    (settings.include_unsubscribe_in_marketing = false →
      enforce_marketing_template_compliance settings (some t) = .ok) ∧
    (t.category = "MARKETING" →
      settings.include_unsubscribe_in_marketing = true →
      effective_unsubscribe_text settings t ≠ "" →
      strContains (trimStr t.footer)
        (effective_unsubscribe_text settings t) = false →
      enforce_marketing_template_compliance settings (some t) =
        .violation ("Marketing templates must include unsubscribe text"
          ++ " in the footer. Please update the template.")) := by
  refine ⟨?_, ?_, ?_, ?_⟩
  · intro hcat hfeat hown hdefault
    unfold enforce_marketing_template_compliance
    have heff : effective_unsubscribe_text settings t = "" := by
      unfold effective_unsubscribe_text
      simp [hown, hdefault]
    simp [hcat, hfeat, heff]
  · intro hcat
    unfold enforce_marketing_template_compliance
    simp [hcat]
  · intro hfeat
    unfold enforce_marketing_template_compliance
    by_cases hcat : t.category = "MARKETING" <;> simp [hcat, hfeat]
  · intro hcat hfeat heff hfoot
    unfold enforce_marketing_template_compliance
    simp [hcat, hfeat, heff, hfoot]

/-- C5 witness: a MARKETING template with empty footer and no unsubscribe
text anywhere is rejected; a UTILITY template passes; a MARKETING template
whose footer lacks the unsubscribe text is rejected. -/
theorem marketing_template_compliance_cases_witness :
    enforce_marketing_template_compliance
      ⟨"Strict", true, false, true, true, 24, false, true, ""⟩
      (some ⟨"tpl", "MARKETING", "", "", "APPROVED", false, none⟩) =
      .violation ("Unsubscribe text is required for marketing templates."
        ++ " Set it on the template or in Compliance Settings.") ∧
    enforce_marketing_template_compliance
      ⟨"Strict", true, false, true, true, 24, false, true, ""⟩
      (some ⟨"tpl", "UTILITY", "", "", "APPROVED", false, none⟩) = .ok ∧
    enforce_marketing_template_compliance
      ⟨"Strict", true, false, true, true, 24, false, true, "Reply STOP"⟩
      (some ⟨"tpl2", "MARKETING", "", "Best regards", "APPROVED", false,
        none⟩) =
      .violation ("Marketing templates must include unsubscribe text"
        ++ " in the footer. Please update the template.") := by
  refine ⟨?_, ?_, ?_⟩
  · exact (marketing_template_compliance_cases
      ⟨"Strict", true, false, true, true, 24, false, true, ""⟩
      ⟨"tpl", "MARKETING", "", "", "APPROVED", false, none⟩).1
      rfl rfl (by decide) (by decide)
  · exact (marketing_template_compliance_cases
      ⟨"Strict", true, false, true, true, 24, false, true, ""⟩
      ⟨"tpl", "UTILITY", "", "", "APPROVED", false, none⟩).2.1 (by decide)
  · exact (marketing_template_compliance_cases
      ⟨"Strict", true, false, true, true, 24, false, true, "Reply STOP"⟩
      ⟨"tpl2", "MARKETING", "", "Best regards", "APPROVED", false,
        none⟩).2.2.2 rfl rfl (by decide) (by decide)

-- ── List helper lemmas ────────────────────────────────────────────────

theorem find?_updateFirst (p : α → Bool) (f : α → α) (l : List α)
    (hpf : ∀ x, p (f x) = p x) :
    (updateFirst p f l).find? p = (l.find? p).map f := by
  induction l with
  | nil => rfl
  | cons x xs ih =>
    by_cases hx : p x = true
    · simp [updateFirst, hx, List.find?_cons_of_pos, hpf x]
    · have hx' : p x = false := by simpa using hx
      simp [updateFirst, hx', List.find?_cons_of_neg, ih]

theorem find?_append_of_none (p : α → Bool) (l1 l2 : List α)
    (h : l1.find? p = none) : (l1 ++ l2).find? p = l2.find? p := by
  rw [List.find?_append, h]
  rfl

theorem updateFirst_append_of_none (p : α → Bool) (f : α → α)
    (l1 l2 : List α) (h : ∀ x ∈ l1, p x = false) :
    updateFirst p f (l1 ++ l2) = l1 ++ updateFirst p f l2 := by
  induction l1 with
  | nil => rfl
  | cons x xs ih =>
    have hx := h x (by simp)
    have ih2 := ih (fun y hy => h y (by simp [hy]))
    simp [updateFirst, hx, ih2]

theorem find?_append_cons_self (p : α → Bool) (l1 l2 : List α) (x : α)
    (h : ∀ y ∈ l1, p y = false) (hx : p x = true) :
    (l1 ++ x :: l2).find? p = some x := by
  have h1 : l1.find? p = none := List.find?_eq_none.mpr (by
    intro y hy
    simp [h y hy])
  rw [find?_append_of_none p l1 (x :: l2) h1,
    List.find?_cons_of_pos _ hx]

-- ── C7 ────────────────────────────────────────────────────────────────

/-- C7: a delivery-status webhook whose first status entry names a
provider message id matching no stored Message leaves the store untouched
and raises no error. -/
theorem status_for_unknown_id_is_noop (data : StatusValue)
    (messages : List Message) (e : StatusEntry) (rest : List StatusEntry)
    (hs : data.statuses = e :: rest)
    (hunknown : ∀ m ∈ messages, m.message_id ≠ some e.id) :
    update_message_status data messages = some messages := by
  unfold update_message_status
  rw [hs]
  have hfind : messages.find? (fun m => m.message_id == some e.id)
      = none := by
    rw [List.find?_eq_none]
    intro m hm
    simpa using hunknown m hm
  simp [hfind]

/-- C7 witness: a status for an untracked id leaves a one-message store
unchanged. -/
theorem status_for_unknown_id_is_noop_witness :
    update_message_status ⟨[⟨"wamid-unknown", "delivered", none⟩]⟩
      [⟨"M-1", "Outgoing", none, some "15551230000", some "hello",
        some "wamid-known", none, false, "text", "Manual", none, none,
        "acct", none, none, some "Success", none, false, false, true,
        "Opted In", none, true, none, 0⟩] =
      some [⟨"M-1", "Outgoing", none, some "15551230000", some "hello",
        some "wamid-known", none, false, "text", "Manual", none, none,
        "acct", none, none, some "Success", none, false, false, true,
        "Opted In", none, true, none, 0⟩] :=
  status_for_unknown_id_is_noop _ _ ⟨"wamid-unknown", "delivered", none⟩ []
    rfl (by decide)

-- ── C10 ───────────────────────────────────────────────────────────────

/-- C10: `update_message_status` reads only `statuses[0]`; any later
entries in the same payload never influence the store. -/
theorem status_webhook_uses_only_first_entry (e : StatusEntry)
    (rest : List StatusEntry) (messages : List Message) :
    update_message_status ⟨e :: rest⟩ messages =
      update_message_status ⟨[e]⟩ messages := rfl

-- ── C9 ────────────────────────────────────────────────────────────────

/-- C9: an Outgoing document inserted with a non-empty `message_id` (a log
record of an already-sent message) passes `before_insert`'s guard phase
unchanged: no consent or window check runs, so nothing is blocked and
`consent_checked` keeps its initial value — for every profile store,
settings and message history. -/
theorem before_insert_skips_checks_when_already_sent
    (settings : ComplianceSettings) (profiles : List Profile)
    (templates : List Template) (messages : List Message) (now : ℚ)
    (default_account : Option String) (doc : Message) (m : String)
    (htype : doc.type = "Outgoing")
    (hmid : doc.message_id = some m) (hm : m ≠ "")
    (hacct : doc.whatsapp_account ≠ "") :
    before_insert_checks settings profiles templates messages now
      default_account doc = .ok doc := by
  unfold before_insert_checks
  have hm2 : optTruthy doc.message_id = true := by
    rw [hmid]
    simpa [optTruthy] using hm
  simp [hacct, hm2]

/-- C9 witness: an Outgoing log record addressed to an opted-out,
do-not-contact profile is inserted without any consent error. -/
theorem before_insert_skips_checks_when_already_sent_witness :
    before_insert_checks
      ⟨"Strict", true, false, true, true, 24, false, false, ""⟩
      [⟨"WP-1", "15551230000", none, "acct", true, true, false,
        "Opted Out", none, "Manual", none, none, "", []⟩]
      [] [] 0 none
      ⟨"M-out", "Outgoing", none, some "+15551230000", some "hi",
        some "wamid-sent", none, false, "text", "Manual", none, none,
        "acct", none, none, none, none, false, false, false, "", none,
        false, none, 0⟩ =
      .ok ⟨"M-out", "Outgoing", none, some "+15551230000", some "hi",
        some "wamid-sent", none, false, "text", "Manual", none, none,
        "acct", none, none, none, none, false, false, false, "", none,
        false, none, 0⟩ :=
  before_insert_skips_checks_when_already_sent
    ⟨"Strict", true, false, true, true, 24, false, false, ""⟩
    [⟨"WP-1", "15551230000", none, "acct", true, true, false,
      "Opted Out", none, "Manual", none, none, "", []⟩]
    [] [] 0 none
    ⟨"M-out", "Outgoing", none, some "+15551230000", some "hi",
      some "wamid-sent", none, false, "text", "Manual", none, none,
      "acct", none, none, none, none, false, false, false, "", none,
      false, none, 0⟩
    "wamid-sent" rfl rfl (by decide) (by decide)

-- ── C8 ────────────────────────────────────────────────────────────────

/-- C8: conversation-route round trip.  With account, normalized number
and source app all present, a `set_last_sender_app` followed by
`get_last_sender_app` on the same key returns that source app (over any
prior route store, so the last write wins); with any of the three absent
the set is a no-op; a get with no recorded route returns none. -/
theorem routing_set_get_round_trip (now : ℚ) (routes : List Route)
    (whatsapp_account to_number source_app : String)
    (message_name : Option String) :
    (whatsapp_account ≠ "" → format_number to_number ≠ "" →
      source_app ≠ "" →
      get_last_sender_app
        (set_last_sender_app now routes whatsapp_account to_number
          source_app message_name) whatsapp_account to_number =
        some source_app) ∧
    ((whatsapp_account = "" ∨ format_number to_number = "" ∨
        source_app = "") →
      set_last_sender_app now routes whatsapp_account to_number source_app
        message_name = routes) ∧
    ((∀ r ∈ routes,
        r.name ≠ format_number to_number ++ "-" ++ whatsapp_account) →
      get_last_sender_app routes whatsapp_account to_number = none) := by
  refine ⟨?_, ?_, ?_⟩
  · intro ha hc hs
    rcases hfind : routes.find? (fun r =>
        r.name == format_number to_number ++ "-" ++ whatsapp_account)
      with _ | r
    · have hset : set_last_sender_app now routes whatsapp_account
          to_number source_app message_name = routes ++
          [⟨format_number to_number ++ "-" ++ whatsapp_account,
            whatsapp_account, format_number to_number, source_app,
            message_name, now⟩] := by
        unfold set_last_sender_app
        simp [ha, hc, hs, hfind]
      rw [hset]
      unfold get_last_sender_app
      simp [ha, hc, hs, hfind, List.find?_append]
    · have hset : set_last_sender_app now routes whatsapp_account
          to_number source_app message_name =
          updateFirst (fun r =>
            r.name == format_number to_number ++ "-" ++ whatsapp_account)
            (fun r => { r with
              last_source_app := source_app
              last_outgoing_message := message_name
              last_outgoing_at := now }) routes := by
        unfold set_last_sender_app
        simp [ha, hc, hs, hfind]
      rw [hset]
      unfold get_last_sender_app
      have hfind2 := find?_updateFirst
        (fun q => q.name == format_number to_number ++ "-" ++
          whatsapp_account)
        (fun q => { q with
          last_source_app := source_app
          last_outgoing_message := message_name
          last_outgoing_at := now })
        routes (fun x => rfl)
      rw [hfind] at hfind2
      simp [ha, hc, hs, hfind2]
  · intro h
    unfold set_last_sender_app
    rcases h with h | h | h <;> simp [h]
  · intro h
    unfold get_last_sender_app
    by_cases hcond : (whatsapp_account ≠ "" ∧ format_number to_number ≠ "")
    · have hfind : routes.find? (fun r =>
          r.name == format_number to_number ++ "-" ++ whatsapp_account)
          = none := by
        rw [List.find?_eq_none]
        intro r hr
        simpa using h r hr
      simp [hcond.1, hcond.2, hfind]
    · rcases not_and_or.mp hcond with h1 | h1
      · simp at h1
        simp [h1]
      · simp at h1
        simp [h1]

/-- C8 witness: set-then-get on an empty store returns the stored app; a
set without a source app is a no-op; a get on an empty store is none. -/
theorem routing_set_get_round_trip_witness :
    get_last_sender_app
      (set_last_sender_app 5 [] "acct" "+15551230000" "app1"
        (some "M-out")) "acct" "+15551230000" = some "app1" ∧
    set_last_sender_app 5 [] "acct" "+15551230000" "" (some "M-out") =
      [] ∧
    get_last_sender_app [] "acct" "+15551230000" = none := by
  refine ⟨?_, ?_, ?_⟩
  · exact (routing_set_get_round_trip 5 [] "acct" "+15551230000" "app1"
      (some "M-out")).1 (by decide) (by decide) (by decide)
  · exact (routing_set_get_round_trip 5 [] "acct" "+15551230000" ""
      (some "M-out")).2.1 (Or.inr (Or.inr rfl))
  · exact (routing_set_get_round_trip 5 [] "acct" "+15551230000" "x"
      none).2.2 (by decide)

-- ── C3 ────────────────────────────────────────────────────────────────

theorem create_hook_messages (db : DB) (doc : Message) :
    (create_whatsapp_profile_hook db doc).messages = db.messages := by
  simp only [create_whatsapp_profile_hook]
  split <;> rfl

theorem update_name_hook_messages (db : DB) (doc : Message) :
    (update_profile_name_hook db doc).messages = db.messages := by
  simp only [update_profile_name_hook]
  split
  · rfl
  · split
    · rfl
    · split <;> rfl

theorem insert_incoming_messages_eq (db : DB) (doc : Message) :
    (insert_incoming_message db doc).messages = db.messages ++ [doc] := by
  unfold insert_incoming_message
  rw [update_name_hook_messages]
  simp [create_hook_messages]

theorem incoming_doc_message_id (env : Env) (db : DB)
    (message : InboundMessage) (wa : String) (spn : Option String)
    (la rt : Option String) (ir : Bool) (doc : Message)
    (h : incoming_doc_for env db message wa spn la rt ir = some doc) :
    doc.message_id = message.id := by
  unfold incoming_doc_for at h
  repeat' split at h
  all_goals try exact Option.noConfusion h
  all_goals
    have h2 := Option.some.inj h
    subst h2
    rfl

theorem process_guard_hit (env : Env) (db : DB)
    (message : InboundMessage) (wa : String) (spn : Option String)
    (i : String) (hid : message.id = some i) (hi : i ≠ "")
    (hany : db.messages.any (fun m => m.message_id == some i) = true) :
    process_incoming_message env db message wa spn = db := by
  unfold process_incoming_message
  rcases hfrom : message.«from» with _ | f
  · rfl
  · by_cases hf : f = ""
    · simp [hfrom, hf]
    · simp [hfrom, hf, hid, hi, hany, optTruthy]

/-- C3: ingestion is idempotent on the provider message id — an inbound
message whose id is already stored changes nothing; running the pipeline
twice equals running it once; and a fresh text message creates exactly one
record carrying that id. -/
theorem webhook_ingestion_dedupe_idempotent (env : Env) (db : DB)
    (message : InboundMessage) (whatsapp_account : String)
    (sender_profile_name : Option String) (i : String)
    (hid : message.id = some i) (hi : i ≠ "") :
    (db.messages.any (fun m => m.message_id == some i) = true →
      process_incoming_message env db message whatsapp_account
        sender_profile_name = db) ∧
    process_incoming_message env
      (process_incoming_message env db message whatsapp_account
        sender_profile_name) message whatsapp_account
      sender_profile_name =
      process_incoming_message env db message whatsapp_account
        sender_profile_name ∧
    (∀ f, message.«from» = some f → f ≠ "" → message.type = some "text" →
      db.messages.countP (fun m => m.message_id == some i) = 0 →
      (process_incoming_message env db message whatsapp_account
          sender_profile_name).messages.countP
        (fun m => m.message_id == some i) = 1) := by
  refine ⟨fun hany => process_guard_hit env db message whatsapp_account
    sender_profile_name i hid hi hany, ?_, ?_⟩
  · rcases hfrom : message.«from» with _ | f
    · have h1 : process_incoming_message env db message whatsapp_account
          sender_profile_name = db := by
        unfold process_incoming_message
        simp [hfrom]
      rw [h1]
      exact h1
    · by_cases hf : f = ""
      · have h1 : process_incoming_message env db message whatsapp_account
            sender_profile_name = db := by
          unfold process_incoming_message
          simp [hfrom, hf]
        rw [h1]
        exact h1
      · by_cases hany : db.messages.any
            (fun m => m.message_id == some i) = true
        · have h1 := process_guard_hit env db message whatsapp_account
            sender_profile_name i hid hi hany
          rw [h1]
          exact h1
        · have hany2 : db.messages.any
              (fun m => m.message_id == some i) = false := by
            simpa using hany
          have hstep : process_incoming_message env db message
              whatsapp_account sender_profile_name =
              match incoming_doc_for env db message whatsapp_account
                sender_profile_name
                (get_last_sender_app db.routes whatsapp_account f)
                (reply_to_of message) (is_reply_of message) with
              | none => db
              | some doc => insert_incoming_message db doc := by
            unfold process_incoming_message
            simp [hfrom, hf, hid, hi, hany2, optTruthy]
          rcases hdoc : incoming_doc_for env db message whatsapp_account
              sender_profile_name
              (get_last_sender_app db.routes whatsapp_account f)
              (reply_to_of message) (is_reply_of message) with _ | doc
          · have h1 : process_incoming_message env db message
                whatsapp_account sender_profile_name = db := by
              rw [hstep, hdoc]
            rw [h1]
            exact h1
          · have h1 : process_incoming_message env db message
                whatsapp_account sender_profile_name =
                insert_incoming_message db doc := by
              rw [hstep, hdoc]
            have hdocid : doc.message_id = some i := by
              rw [incoming_doc_message_id env db message whatsapp_account
                sender_profile_name
                (get_last_sender_app db.routes whatsapp_account f)
                (reply_to_of message) (is_reply_of message) doc hdoc, hid]
            have hanyP : (insert_incoming_message db doc).messages.any
                (fun m => m.message_id == some i) = true := by
              rw [insert_incoming_messages_eq, List.any_append]
              simp [hdocid]
            rw [h1]
            exact process_guard_hit env (insert_incoming_message db doc)
              message whatsapp_account sender_profile_name i hid hi hanyP
  · intro f hfrom hf htext hcount
    have hnone := List.countP_eq_zero.mp hcount
    have hany2 : db.messages.any
        (fun m => m.message_id == some i) = false := by
      rcases hb : db.messages.any (fun m => m.message_id == some i)
      · rfl
      · obtain ⟨x, hx, hpx⟩ := List.any_eq_true.mp hb
        exact absurd hpx (hnone x hx)
    have hstep : process_incoming_message env db message
        whatsapp_account sender_profile_name =
        match incoming_doc_for env db message whatsapp_account
          sender_profile_name
          (get_last_sender_app db.routes whatsapp_account f)
          (reply_to_of message) (is_reply_of message) with
        | none => db
        | some doc => insert_incoming_message db doc := by
      unfold process_incoming_message
      simp [hfrom, hf, hid, hi, hany2, optTruthy]
    rcases hdoc : incoming_doc_for env db message whatsapp_account
        sender_profile_name
        (get_last_sender_app db.routes whatsapp_account f)
        (reply_to_of message) (is_reply_of message) with _ | doc
    · exfalso
      unfold incoming_doc_for at hdoc
      simp [htext] at hdoc
    · have h1 : process_incoming_message env db message whatsapp_account
          sender_profile_name = insert_incoming_message db doc := by
        rw [hstep, hdoc]
      have hdocid : doc.message_id = some i := by
        rw [incoming_doc_message_id env db message whatsapp_account
          sender_profile_name
          (get_last_sender_app db.routes whatsapp_account f)
          (reply_to_of message) (is_reply_of message) doc hdoc, hid]
      rw [h1, insert_incoming_messages_eq, List.countP_append, hcount]
      simp [List.countP_cons, hdocid]

/-- C3 witness: a text message whose id is already stored is skipped, and
a fresh one creates exactly one record with that id. -/
theorem webhook_ingestion_dedupe_idempotent_witness :
    process_incoming_message ⟨7, "Administrator"⟩
      ⟨[], [], [⟨"M-0", "Incoming", some "15551230000", none, some "hi",
        some "wamid-1", none, false, "text", "", none, none, "acct", none,
        none, none, none, false, false, false, "", none, false, none,
        0⟩], []⟩
      ⟨some "15551230000", some "wamid-1", some "text", some "hello",
        none, none, none, none⟩ "acct" none =
      ⟨[], [], [⟨"M-0", "Incoming", some "15551230000", none, some "hi",
        some "wamid-1", none, false, "text", "", none, none, "acct", none,
        none, none, none, false, false, false, "", none, false, none,
        0⟩], []⟩ ∧
    (process_incoming_message ⟨7, "Administrator"⟩ ⟨[], [], [], []⟩
      ⟨some "15551230000", some "wamid-1", some "text", some "hello",
        none, none, none, none⟩ "acct" none).messages.countP
      (fun m => m.message_id == some "wamid-1") = 1 := by
  constructor
  · exact (webhook_ingestion_dedupe_idempotent ⟨7, "Administrator"⟩
      ⟨[], [], [⟨"M-0", "Incoming", some "15551230000", none, some "hi",
        some "wamid-1", none, false, "text", "", none, none, "acct", none,
        none, none, none, false, false, false, "", none, false, none,
        0⟩], []⟩
      ⟨some "15551230000", some "wamid-1", some "text", some "hello",
        none, none, none, none⟩ "acct" none "wamid-1" rfl
      (by decide)).1 (by decide)
  · exact (webhook_ingestion_dedupe_idempotent ⟨7, "Administrator"⟩
      ⟨[], [], [], []⟩
      ⟨some "15551230000", some "wamid-1", some "text", some "hello",
        none, none, none, none⟩ "acct" none "wamid-1" rfl
      (by decide)).2.2 "15551230000" rfl (by decide) rfl (by decide)

-- ── C6 ────────────────────────────────────────────────────────────────

theorem updateFirst_cons_of_pos (p : α → Bool) (f : α → α) (x : α)
    (l : List α) (h : p x = true) :
    updateFirst p f (x :: l) = f x :: l := by
  simp [updateFirst, h]

/-- One full (non-category) run of `process_opt_out` over a store in which
`p` is the first profile holding the contact's normalized number (and the
first with its document name): the profile is replaced in place by its
opted-out update, exactly one Opt-Out audit row is appended, and routes
are untouched. -/
theorem process_opt_out_full_spec (env : Env) (pre post : List Profile)
    (p : Profile) (logs : List ConsentLog) (msgs : List Message)
    (routes : List Route) (contact_number whatsapp_account : String)
    (message_doc_name : Option String)
    (keyword_match : Option OptOutKeyword) (profile_name : Option String)
    (hpnum : p.number = format_number contact_number)
    (hpre : ∀ q ∈ pre, q.number ≠ format_number contact_number ∧
      q.name ≠ p.name)
    (hfull : opt_out_action keyword_match = "Category Opt-Out" →
      optTruthy (opt_out_target keyword_match) = false) :
    process_opt_out env ⟨pre ++ p :: post, logs, msgs, routes⟩
      contact_number whatsapp_account message_doc_name keyword_match
      profile_name =
    ⟨pre ++ full_opt_out_update env keyword_match p :: post,
      logs ++ [⟨p.name, format_number contact_number, "Opt-Out", none,
        p.is_opted_out, true, "Webhook", message_doc_name, env.user,
        env.now⟩],
      if optTruthy message_doc_name then
        updateFirst (fun m => m.name == message_doc_name.getD "")
          (fun m => { m with is_opt_out_request := true }) msgs
      else msgs,
      routes⟩ := by
  have hnum_find : (pre ++ p :: post).find?
      (fun q => q.number == format_number contact_number) = some p := by
    refine find?_append_cons_self _ _ _ _ (fun y hy => ?_) ?_
    · rw [beq_eq_false_iff_ne]
      exact (hpre y hy).1
    · simp [hpnum]
  have hname_find : (pre ++ p :: post).find?
      (fun q => q.name == p.name) = some p := by
    refine find?_append_cons_self _ _ _ _ (fun y hy => ?_) ?_
    · rw [beq_eq_false_iff_ne]
      exact (hpre y hy).2
    · simp
  have hupd : updateFirst (fun q => q.name == p.name)
      (fun _ => full_opt_out_update env keyword_match p)
      (pre ++ p :: post) =
      pre ++ full_opt_out_update env keyword_match p :: post := by
    rw [updateFirst_append_of_none _ _ _ _ (fun y hy => by
      rw [beq_eq_false_iff_ne]
      exact (hpre y hy).2)]
    rw [updateFirst_cons_of_pos _ _ _ _ (by simp)]
  have hcond : (decide (opt_out_action keyword_match = "Category Opt-Out")
      && optTruthy (opt_out_target keyword_match)) = false := by
    by_cases hact : opt_out_action keyword_match = "Category Opt-Out"
    · simp [hact, hfull hact]
    · simp [hact]
  unfold process_opt_out get_or_create_profile log_consent
  simp only [hnum_find]
  simp only [hname_find, hcond, Bool.false_eq_true, if_false, hupd]
  by_cases hmd : optTruthy message_doc_name
  · simp [hmd]
  · simp [hmd]

/-- C6: re-running a full `process_opt_out` for an already-opted-out
profile leaves the profile opted out (same end state) while appending one
Opt-Out audit row per invocation — two rows after two runs. -/
theorem process_opt_out_state_idempotent_log_additive (env : Env)
    (pre post : List Profile) (p : Profile) (logs : List ConsentLog)
    (msgs : List Message) (routes : List Route)
    (contact_number whatsapp_account : String)
    (message_doc_name : Option String)
    (keyword_match : Option OptOutKeyword) (profile_name : Option String)
    (hpnum : p.number = format_number contact_number)
    (hpre : ∀ q ∈ pre, q.number ≠ format_number contact_number ∧
      q.name ≠ p.name)
    (hfull : opt_out_action keyword_match = "Category Opt-Out" →
      optTruthy (opt_out_target keyword_match) = false)
    (hopted : p.is_opted_out = true) :
    ∃ q1 q2 e1 e2,
      (process_opt_out env ⟨pre ++ p :: post, logs, msgs, routes⟩
        contact_number whatsapp_account message_doc_name keyword_match
        profile_name).profiles = pre ++ q1 :: post ∧
      q1.is_opted_out = true ∧
      (process_opt_out env ⟨pre ++ p :: post, logs, msgs, routes⟩
        contact_number whatsapp_account message_doc_name keyword_match
        profile_name).consent_logs = logs ++ [e1] ∧
      e1.action = "Opt-Out" ∧ e1.previous_status = true ∧
      (process_opt_out env
        (process_opt_out env ⟨pre ++ p :: post, logs, msgs, routes⟩
          contact_number whatsapp_account message_doc_name keyword_match
          profile_name)
        contact_number whatsapp_account message_doc_name keyword_match
        profile_name).profiles = pre ++ q2 :: post ∧
      q2.is_opted_out = true ∧
      (process_opt_out env
        (process_opt_out env ⟨pre ++ p :: post, logs, msgs, routes⟩
          contact_number whatsapp_account message_doc_name keyword_match
          profile_name)
        contact_number whatsapp_account message_doc_name keyword_match
        profile_name).consent_logs = logs ++ [e1, e2] ∧
      e2.action = "Opt-Out" ∧ e2.previous_status = true := by
  have h1 := process_opt_out_full_spec env pre post p logs msgs routes
    contact_number whatsapp_account message_doc_name keyword_match
    profile_name hpnum hpre hfull
  have hq1num : (full_opt_out_update env keyword_match p).number =
      format_number contact_number := hpnum
  have hq1name : (full_opt_out_update env keyword_match p).name =
      p.name := rfl
  have hpre2 : ∀ q ∈ pre, q.number ≠ format_number contact_number ∧
      q.name ≠ (full_opt_out_update env keyword_match p).name := by
    intro q hq
    exact ⟨(hpre q hq).1, (hpre q hq).2⟩
  have h2 := process_opt_out_full_spec env pre post
    (full_opt_out_update env keyword_match p)
    (logs ++ [⟨p.name, format_number contact_number, "Opt-Out", none,
      p.is_opted_out, true, "Webhook", message_doc_name, env.user,
      env.now⟩])
    (if optTruthy message_doc_name then
        updateFirst (fun m => m.name == message_doc_name.getD "")
          (fun m => { m with is_opt_out_request := true }) msgs
      else msgs)
    routes contact_number whatsapp_account message_doc_name keyword_match
    profile_name hq1num hpre2 hfull
  refine ⟨full_opt_out_update env keyword_match p,
    full_opt_out_update env keyword_match
      (full_opt_out_update env keyword_match p),
    ⟨p.name, format_number contact_number, "Opt-Out", none,
      p.is_opted_out, true, "Webhook", message_doc_name, env.user,
      env.now⟩,
    ⟨(full_opt_out_update env keyword_match p).name,
      format_number contact_number, "Opt-Out", none,
      (full_opt_out_update env keyword_match p).is_opted_out, true,
      "Webhook", message_doc_name, env.user, env.now⟩,
    ?_, rfl, ?_, rfl, ?_, ?_, rfl, ?_, rfl, ?_⟩
  · rw [h1]
  · rw [h1]
  · simp [hopted]
  · rw [h1, h2]
  · rw [h1, h2]
    simp
  · rfl

/-- C6 witness: opting out an already-opted-out one-profile store twice
ends with the profile still opted out and exactly two audit rows. -/
theorem process_opt_out_state_idempotent_log_additive_witness :
    ((process_opt_out ⟨3, "Administrator"⟩
      (process_opt_out ⟨3, "Administrator"⟩
        ⟨[⟨"WP-1", "15551230000", none, "acct", false, true, false,
          "Opted Out", none, "Keyword", none, none, "", []⟩], [], [], []⟩
        "+15551230000" "acct" none none none)
      "+15551230000" "acct" none none none).consent_logs.map
        (fun e => e.action)) = ["Opt-Out", "Opt-Out"] ∧
    ((process_opt_out ⟨3, "Administrator"⟩
      (process_opt_out ⟨3, "Administrator"⟩
        ⟨[⟨"WP-1", "15551230000", none, "acct", false, true, false,
          "Opted Out", none, "Keyword", none, none, "", []⟩], [], [], []⟩
        "+15551230000" "acct" none none none)
      "+15551230000" "acct" none none none).profiles.map
        (fun q => q.is_opted_out)) = [true] := by
  obtain ⟨q1, q2, e1, e2, h1, h2, h3, h4, h5, h6, h7, h8, h9, h10⟩ :=
    process_opt_out_state_idempotent_log_additive ⟨3, "Administrator"⟩
      [] []
      ⟨"WP-1", "15551230000", none, "acct", false, true, false,
        "Opted Out", none, "Keyword", none, none, "", []⟩
      [] [] [] "+15551230000" "acct" none none none rfl
      (by simp) (by decide) rfl
  simp only [List.nil_append] at h1 h3 h6 h8
  constructor
  · rw [h8]
    simp [h9, h4]
  · rw [h6]
    simp [h7]

-- ── C1 ────────────────────────────────────────────────────────────────

/-- C1: the webhook text dispatch performs no opt-out processing.  With
keyword detection enabled and an enabled Exact case-insensitive "STOP"
rule — which `check_opt_out_keyword` does match — processing the inbound
text "STOP" leaves the sender profile not opted out, appends no consent
log entry, and leaves the created message untagged; while
`process_opt_out`, had it been invoked with that match, would opt the
profile out and append one Opt-Out log row. -/
theorem webhook_text_pipeline_never_invokes_opt_out :
    check_opt_out_keyword stop_settings [stop_keyword] "STOP"
      (some "acct") = some stop_keyword ∧
    (process_incoming_message stop_env stop_db stop_inbound "acct"
      none).profiles = [stop_profile] ∧
    (process_incoming_message stop_env stop_db stop_inbound "acct"
      none).consent_logs = [] ∧
    (process_incoming_message stop_env stop_db stop_inbound "acct"
      none).messages.map (fun m => m.is_opt_out_request) = [false] ∧
    (process_opt_out stop_env stop_db "15551230000" "acct" none
      (some stop_keyword) none).profiles.map (fun q => q.is_opted_out) =
      [true] ∧
    (process_opt_out stop_env stop_db "15551230000" "acct" none
      (some stop_keyword) none).consent_logs.map (fun e => e.action) =
      ["Opt-Out"] := by
  decide

end FrappeWhatsapp
